import Mathlib

/-!
Verification development for the shokuhou SMTP test client.

The client (src/shokuhou.js and the variant source files, of which
src/unnamed/part_001 is the most complete: it adds the AUTH LOGIN sub-chain,
the verbose flag and the getStatus response parser) runs one linear SMTP
transaction over a socket: connect, read banner, EHLO with HELO fallback,
optional AUTH LOGIN, MAIL FROM, RCPT TO, DATA, message body, QUIT.

We embed the transaction as a pure state machine: the scripted server is a
list of reply strings, a read consumes the next reply (an exhausted list
models a read failure/timeout, which the source catches in the same catch
block as a protocol rejection), and the run returns the full list of bytes
written to the socket, the debug trace, the terminal outcome and which
teardown action (destroy / end / nothing) was performed.
-/

namespace Shokuhou

/-- Modelled from the spec: the module `modules/getStatus.js`, required at
src/unnamed/part_001 line 23, is not among the source files. Per the spec
(§4.2), it is a pure function that, given raw reply bytes, returns the
3-character leading status code, or a sentinel "no code" value (here `none`)
if the first three characters are not parseable as the expected code field. -/
def getStatus (s : String) : Option String :=
  match s.data with
  | a :: b :: c :: _ =>
    if a.isDigit && b.isDigit && c.isDigit then some ⟨[a, b, c]⟩ else none
  | _ => none

/-- The inline status extraction of src/shokuhou.js (`.toString().substring(0,3)`,
e.g. line 95): the first three characters of the reply, or the whole reply if
it is shorter. -/
def firstThree (s : String) : String := ⟨s.data.take 3⟩

/-- JavaScript `String.split(sep, 2)[1]` specialised to the use at
src/shokuhou.js line 44 / src/unnamed/part_001 line 48: the second element of
the split, i.e. the segment between the first separator and the second
separator (or the end); `none` when the string has no separator (JS yields
`undefined`). -/
def jsSplit2At (sep : Char) : List Char → Option (List Char)
  | [] => none
  | c :: cs => if c = sep then some (cs.takeWhile (· ≠ sep)) else jsSplit2At sep cs

/-- The derived domain: `sender.split("@", 2)[1]`
(src/shokuhou.js line 44, src/unnamed/part_001 line 48). -/
def domainOpt (sender : String) : Option String :=
  (jsSplit2At '@' sender.data).map fun l => ⟨l⟩

/-- The domain as it is interpolated into the greeting template literal:
a JS template literal renders `undefined` as the text "undefined". -/
def domainStr (sender : String) : String :=
  match domainOpt sender with
  | some d => d
  | none => "undefined"

/-- The base64 alphabet used by `btoa`. -/
def base64Chars : List Char :=
  "ABCDEFGHIJKLMNOPQRSTUVWXYZabcdefghijklmnopqrstuvwxyz0123456789+/".data

def b64At (n : Nat) : Char := base64Chars.getD n 'A'

/-- Standard base64 of a byte list, with `=` padding, as computed by `btoa`. -/
def btoaBytes : List Nat → List Char
  | [] => []
  | [a] => [b64At (a / 4), b64At (a % 4 * 16), '=', '=']
  | [a, b] => [b64At (a / 4), b64At (a % 4 * 16 + b / 16), b64At (b % 16 * 4), '=']
  | a :: b :: c :: rest =>
    b64At (a / 4) :: b64At (a % 4 * 16 + b / 16) :: b64At (b % 16 * 4 + c / 64) ::
      b64At (c % 64) :: btoaBytes rest

/-- JavaScript `btoa` on a latin1 string (src/unnamed/part_001 lines 151, 158). -/
def btoa (s : String) : String := ⟨btoaBytes (s.data.map Char.toNat)⟩

/-- JavaScript `String.trim()`, used only for the verbose debug trace. -/
def jsTrim (s : String) : String := s.trim

/-- The session configuration relevant to the state machine
(clientOpts of src/unnamed/part_001 lines 33-62). -/
structure ClientOpts where
  user : String
  sender : String
  recipient : String
  password : Option String
  verbose : Bool
deriving DecidableEq, Repr

/-- The stage at which a run can fail; each constructor corresponds to one
`throw` site of src/unnamed/part_001. -/
inductive Stage
  | banner
  | greeting
  | auth
  | mailFrom
  | rcptTo
  | dataStart
  | dataBody
deriving DecidableEq, Repr

/-- What the run did to the socket before terminating. -/
inductive Teardown
  | noTeardown
  | destroyed
  | ended
deriving DecidableEq, Repr

/-- Terminal outcome of a run. -/
inductive Outcome
  | completed
  | failedConnect
  | failed (st : Stage)
deriving DecidableEq, Repr

/-- The observable session state threaded through the stages: bytes written so
far, debug lines printed so far, and the replies the scripted server has not
yet delivered. -/
structure Sess where
  writes : List String
  debugs : List String
  replies : List String
deriving DecidableEq, Repr

def Sess.write (s : Sess) (line : String) : Sess :=
  { s with writes := s.writes ++ [line] }

/-- A `console.debug` guarded by `clientOpts.verbose`. -/
def Sess.debug (s : Sess) (v : Bool) (m : String) : Sess :=
  if v then { s with debugs := s.debugs ++ [m] } else s

/-- One `client.read()`: consume the next scripted reply; `none` models a
read failure (timeout / connection loss), which lands in the stage's catch. -/
def Sess.read : Sess → Option (String × Sess)
  | ⟨_, _, []⟩ => none
  | ⟨w, d, r :: rs⟩ => some (r, ⟨w, d, rs⟩)

/-- Result of one stage: either the session advanced, or the stage's catch
fired (tagged with the stage) with the session as it stood. -/
abbrev StageResult := Except (Stage × Sess) Sess

/-- Command line constants of the source. -/
def ehloLine (d : String) : String := "EHLO " ++ d ++ "\r\n"

def heloLine (d : String) : String := "HELO " ++ d ++ "\r\n"

def authLoginLine : String := "AUTH LOGIN\r\n"

def b64Line (x : String) : String := btoa x ++ "\r\n"

def mailFromLine (sender : String) : String := "MAIL FROM: <" ++ sender ++ ">\r\n"

def rcptToLine (recipient : String) : String := "RCPT TO: <" ++ recipient ++ ">\r\n"

def dataLine : String := "DATA\r\n"

/-- The fixed test message (src/unnamed/part_001 line 211 /
src/shokuhou.js line 151): headers, blank line, body, terminating `.` line. -/
def messageBody (sender recipient : String) : String :=
  "From: <" ++ sender ++ ">\r\nTo: <" ++ recipient ++
    ">\r\nSubject: SMTP Test Email\r\n\r\nIf you have received this email, your SMTP server is configured correctly\r\n.\r\n"

def quitLine : String := "QUIT\r\n"

/-- Banner stage (src/unnamed/part_001 lines 98-109): read the banner,
require status 220. -/
def bannerStage (v : Bool) (s : Sess) : StageResult :=
  match s.read with
  | none => .error (.banner, s)
  | some (banner, s) =>
    let s := s.debug v ("[>] " ++ jsTrim banner)
    if getStatus banner ≠ some "220" then .error (.banner, s) else .ok s

/-- Greeting stage (src/unnamed/part_001 lines 113-137): send EHLO, and if the
reply is 502 send HELO once and re-read; the (possibly replaced) reply must
be 250. -/
def greetingStage (v : Bool) (d : String) (s : Sess) : StageResult :=
  let s := s.debug v ("[<] EHLO " ++ d)
  let s := s.write (ehloLine d)
  match s.read with
  | none => .error (.greeting, s)
  | some (r1, s) =>
    let s := s.debug v ("[>] " ++ jsTrim r1)
    let next : Except (Stage × Sess) (String × Sess) :=
      if getStatus r1 = some "502" then
        let s := s.debug v ("[<] HELO " ++ d)
        let s := s.write (heloLine d)
        match s.read with
        | none => .error (.greeting, s)
        | some (r2, s) => .ok (r2, s.debug v ("[>] " ++ jsTrim r2))
      else .ok (r1, s)
    match next with
    | .error e => .error e
    | .ok (resp, s) =>
      if getStatus resp ≠ some "250" then .error (.greeting, s) else .ok s

/-- Authentication stage (src/unnamed/part_001 lines 140-169), entered only
when a password was supplied: AUTH LOGIN must get 334, base64(user) must get
334, base64(password) must get 235. -/
def authStage (v : Bool) (user password : String) (s : Sess) : StageResult :=
  let s := s.debug v "[<] AUTH LOGIN"
  let s := s.write authLoginLine
  match s.read with
  | none => .error (.auth, s)
  | some (r1, s) =>
    let s := s.debug v ("[>] " ++ jsTrim r1)
    if getStatus r1 ≠ some "334" then .error (.auth, s) else
    let s := s.debug v ("[<] " ++ btoa user)
    let s := s.write (b64Line user)
    match s.read with
    | none => .error (.auth, s)
    | some (r2, s) =>
      let s := s.debug v ("[>] " ++ jsTrim r2)
      if getStatus r2 ≠ some "334" then .error (.auth, s) else
      let s := s.debug v ("[<] " ++ btoa password)
      let s := s.write (b64Line password)
      match s.read with
      | none => .error (.auth, s)
      | some (r3, s) =>
        let s := s.debug v ("[>] " ++ jsTrim r3)
        if getStatus r3 ≠ some "235" then .error (.auth, s) else .ok s

/-- Mail initiation stage (src/unnamed/part_001 lines 173-196): MAIL FROM must
get 250; RCPT TO must get 250 or 251. -/
def mailStage (v : Bool) (sender recipient : String) (s : Sess) : StageResult :=
  let s := s.debug v ("[<] MAIL FROM: <" ++ sender ++ ">")
  let s := s.write (mailFromLine sender)
  match s.read with
  | none => .error (.mailFrom, s)
  | some (r1, s) =>
    let s := s.debug v ("[>] " ++ jsTrim r1)
    if getStatus r1 ≠ some "250" then .error (.mailFrom, s) else
    let s := s.debug v ("[<] RCPT TO: <" ++ recipient ++ ">")
    let s := s.write (rcptToLine recipient)
    match s.read with
    | none => .error (.rcptTo, s)
    | some (r2, s) =>
      let s := s.debug v ("[>] " ++ jsTrim r2)
      if getStatus r2 ≠ some "250" ∧ getStatus r2 ≠ some "251" then
        .error (.rcptTo, s)
      else .ok s

/-- Data stage (src/unnamed/part_001 lines 199-223): DATA must get 354, then
the fixed message body is sent and must get 250. -/
def dataStage (v : Bool) (sender recipient : String) (s : Sess) : StageResult :=
  let s := s.debug v "[<] DATA"
  let s := s.write dataLine
  match s.read with
  | none => .error (.dataStart, s)
  | some (r1, s) =>
    let s := s.debug v ("[>] " ++ jsTrim r1)
    if getStatus r1 ≠ some "354" then .error (.dataStart, s) else
    let s := s.debug v ("[<] From: <" ++ sender ++ "> To: <" ++ recipient ++
      "> Subject: SMTP Test Email If you have received this email, your SMTP server is configured correctly .")
    let s := s.write (messageBody sender recipient)
    match s.read with
    | none => .error (.dataBody, s)
    | some (r2, s) =>
      let s := s.debug v ("[>] " ++ jsTrim r2)
      if getStatus r2 ≠ some "250" then .error (.dataBody, s) else .ok s

/-- The post-connect stage chain of src/unnamed/part_001: banner, greeting,
authentication only if a password was configured, mail initiation, data. -/
def sessionChain (o : ClientOpts) (s : Sess) : StageResult :=
  match bannerStage o.verbose s with
  | .error e => .error e
  | .ok s =>
    match greetingStage o.verbose (domainStr o.sender) s with
    | .error e => .error e
    | .ok s =>
      match (match o.password with
             | some pw => authStage o.verbose o.user pw s
             | none => .ok s) with
      | .error e => .error e
      | .ok s =>
        match mailStage o.verbose o.sender o.recipient s with
        | .error e => .error e
        | .ok s => dataStage o.verbose o.sender o.recipient s

/-- Result of a whole run. -/
structure RunResult where
  writes : List String
  debugs : List String
  outcome : Outcome
  teardown : Teardown
deriving DecidableEq, Repr

/-- The whole run (the async closure of src/unnamed/part_001 lines 85-230).
`connectOk` is whether `client.connect` succeeded; on connect failure the
source logs and exits with no teardown call. A stage failure logs, destroys
the socket and exits. On success the source writes QUIT and ends the socket
gracefully. -/
def run (o : ClientOpts) (connectOk : Bool) (replies : List String) : RunResult :=
  if connectOk then
    match sessionChain o ⟨[], [], replies⟩ with
    | .error (st, s) => ⟨s.writes, s.debugs, .failed st, .destroyed⟩
    | .ok s =>
      let s := s.debug o.verbose "[<] QUIT"
      let s := s.write quitLine
      ⟨s.writes, s.debugs, .completed, .ended⟩
  else ⟨[], [], .failedConnect, .noTeardown⟩

/-- Bytes written, whichever way the stage ended. -/
def exWrites : StageResult → List String
  | .error (_, s) => s.writes
  | .ok s => s.writes

/-- The stage a stage-result failed at, if it failed. -/
def failedAt : StageResult → Option Stage
  | .error (st, _) => some st
  | .ok _ => none

/-! Basic string facts used throughout. -/

theorem data_mk (l : List Char) : (String.mk l).data = l := rfl

theorem ne_of_head {a b : String} (h : a.data.head? ≠ b.data.head?) : a ≠ b :=
  fun e => h (by rw [e])

theorem head_of_append (p rest : String) (c : Char) (hc : p.data.head? = some c) :
    (p ++ rest).data.head? = some c := by
  rw [String.data_append]
  cases hp : p.data with
  | nil => rw [hp] at hc; cases hc
  | cons x xs => rw [hp] at hc; simpa using hc

/-! Proofs about the response parser. -/

/-- Claim C5. Response parsing is a pure total function: it is a Lean
function, hence total and exception-free by construction. Parsing
"220 ok\r\n" yields the code "220"; parsing the empty reply yields the
no-code sentinel `none`; and parsing is idempotent: whenever parsing
succeeds with a code, parsing that code again returns the same code. -/
theorem getStatus_total_idempotent :
    getStatus "220 ok\r\n" = some "220" ∧
    getStatus "" = none ∧
    ∀ s code, getStatus s = some code → getStatus code = some code := by
  refine ⟨rfl, rfl, ?_⟩
  intro s code h
  unfold getStatus at h
  split at h
  next a b c rest heq =>
    split at h
    next hd =>
      injection h with h
      subst h
      unfold getStatus
      simp [hd]
    next hd => cases h
  next => cases h

/-- Claim C5 witness: idempotence applied at the concrete reply "250 ok". -/
theorem getStatus_total_idempotent_witness : getStatus "250" = some "250" :=
  getStatus_total_idempotent.2.2 "250 ok" "250" (by decide)

/-! Proofs about the greeting stage. -/

/-- Claim C1. The greeting stage first writes `EHLO <domain>`. If and only if
the first reply's status is 502 it writes `HELO <domain>` exactly once (the
write list holds exactly the EHLO line and the HELO line after it, nothing
more) and re-evaluates the second reply against 250, so a 502 to the HELO
fallback fails the stage with no further fallback; in either branch any final
reply other than 250 fails the Greeting stage. -/
theorem greeting_ehlo_helo_fallback (v : Bool) (d : String) (w dbg : List String)
    (r1 r2 : String) (rest : List String) :
    (getStatus r1 = some "502" →
      exWrites (greetingStage v d ⟨w, dbg, r1 :: r2 :: rest⟩) = w ++ [ehloLine d, heloLine d] ∧
      failedAt (greetingStage v d ⟨w, dbg, r1 :: r2 :: rest⟩) =
        (if getStatus r2 = some "250" then none else some Stage.greeting)) ∧
    (getStatus r1 ≠ some "502" →
      exWrites (greetingStage v d ⟨w, dbg, r1 :: r2 :: rest⟩) = w ++ [ehloLine d] ∧
      failedAt (greetingStage v d ⟨w, dbg, r1 :: r2 :: rest⟩) =
        (if getStatus r1 = some "250" then none else some Stage.greeting)) := by
  constructor
  · intro h502
    cases v <;>
      by_cases h250 : getStatus r2 = some "250" <;>
        simp [greetingStage, Sess.debug, Sess.write, Sess.read, exWrites, failedAt, h502, h250]
  · intro h502
    cases v <;>
      by_cases h250 : getStatus r1 = some "250" <;>
        simp [greetingStage, Sess.debug, Sess.write, Sess.read, exWrites, failedAt, h502, h250]

/-- Claim C1 witness: with a scripted 502 to EHLO and 250 to HELO, the stage
writes EHLO then HELO and succeeds. -/
theorem greeting_ehlo_helo_fallback_witness :
    exWrites (greetingStage false "example.com" ⟨[], [], ["502 no", "250 ok"]⟩) =
      [] ++ [ehloLine "example.com", heloLine "example.com"] ∧
    failedAt (greetingStage false "example.com" ⟨[], [], ["502 no", "250 ok"]⟩) =
      (if getStatus "250 ok" = some "250" then none else some Stage.greeting) :=
  (greeting_ehlo_helo_fallback false "example.com" [] [] "502 no" "250 ok" []).1 (by decide)

/-! Per-stage bookkeeping: each stage only ever appends to the write list, the
appended lines come from the stage's fixed command set, and each stage only
fails with its own stage tag. -/

theorem bannerStage_writes (v : Bool) (s : Sess) :
    ∀ x, x ∈ exWrites (bannerStage v s) ↔ x ∈ s.writes := by
  obtain ⟨w, dbg, rs⟩ := s
  intro x
  rcases rs with _ | ⟨r1, rs⟩
  · cases v <;> simp [bannerStage, Sess.debug, Sess.read, exWrites]
  · by_cases h1 : getStatus r1 = some "220" <;> cases v <;>
      simp [bannerStage, Sess.debug, Sess.read, exWrites, h1]

theorem bannerStage_tag (v : Bool) (s : Sess) (st : Stage) (s' : Sess)
    (h : bannerStage v s = .error (st, s')) : st = Stage.banner := by
  obtain ⟨w, dbg, rs⟩ := s
  rcases rs with _ | ⟨r1, rs⟩
  · cases v <;> simp [bannerStage, Sess.debug, Sess.read] at h <;> tauto
  · by_cases h1 : getStatus r1 = some "220" <;> cases v <;>
      simp [bannerStage, Sess.debug, Sess.read, h1] at h <;> tauto

theorem greetingStage_writes_subset (v : Bool) (d : String) (s : Sess) :
    ∀ x ∈ exWrites (greetingStage v d s),
      x ∈ s.writes ∨ x = ehloLine d ∨ x = heloLine d := by
  obtain ⟨w, dbg, rs⟩ := s
  intro x hx
  rcases rs with _ | ⟨r1, rs⟩
  · cases v <;>
      simp [greetingStage, Sess.debug, Sess.write, Sess.read, exWrites] at hx <;> tauto
  · by_cases h1 : getStatus r1 = some "502"
    · rcases rs with _ | ⟨r2, rs⟩
      · cases v <;>
          simp [greetingStage, Sess.debug, Sess.write, Sess.read, exWrites, h1] at hx <;>
          tauto
      · by_cases h2 : getStatus r2 = some "250" <;> cases v <;>
          simp [greetingStage, Sess.debug, Sess.write, Sess.read, exWrites, h1, h2] at hx <;>
          tauto
    · by_cases h2 : getStatus r1 = some "250" <;> cases v <;>
        simp [greetingStage, Sess.debug, Sess.write, Sess.read, exWrites, h1, h2] at hx <;>
        tauto

theorem greetingStage_writes_mono (v : Bool) (d : String) (s : Sess) :
    ∀ x ∈ s.writes, x ∈ exWrites (greetingStage v d s) := by
  obtain ⟨w, dbg, rs⟩ := s
  intro x hx
  simp only [Sess.writes] at hx
  rcases rs with _ | ⟨r1, rs⟩
  · cases v <;>
      simp [greetingStage, Sess.debug, Sess.write, Sess.read, exWrites, hx]
  · by_cases h1 : getStatus r1 = some "502"
    · rcases rs with _ | ⟨r2, rs⟩
      · cases v <;>
          simp [greetingStage, Sess.debug, Sess.write, Sess.read, exWrites, h1, hx]
      · by_cases h2 : getStatus r2 = some "250" <;> cases v <;>
          simp [greetingStage, Sess.debug, Sess.write, Sess.read, exWrites, h1, h2, hx]
    · by_cases h2 : getStatus r1 = some "250" <;> cases v <;>
        simp [greetingStage, Sess.debug, Sess.write, Sess.read, exWrites, h1, h2, hx]

theorem greetingStage_tag (v : Bool) (d : String) (s : Sess) (st : Stage) (s' : Sess)
    (h : greetingStage v d s = .error (st, s')) : st = Stage.greeting := by
  obtain ⟨w, dbg, rs⟩ := s
  rcases rs with _ | ⟨r1, rs⟩
  · cases v <;> simp [greetingStage, Sess.debug, Sess.write, Sess.read] at h <;> tauto
  · by_cases h1 : getStatus r1 = some "502"
    · rcases rs with _ | ⟨r2, rs⟩
      · cases v <;>
          simp [greetingStage, Sess.debug, Sess.write, Sess.read, h1] at h <;> tauto
      · by_cases h2 : getStatus r2 = some "250" <;> cases v <;>
          simp [greetingStage, Sess.debug, Sess.write, Sess.read, h1, h2] at h <;> tauto
    · by_cases h2 : getStatus r1 = some "250" <;> cases v <;>
        simp [greetingStage, Sess.debug, Sess.write, Sess.read, h1, h2] at h <;> tauto

theorem authStage_writes_subset (v : Bool) (u pw : String) (s : Sess) :
    ∀ x ∈ exWrites (authStage v u pw s),
      x ∈ s.writes ∨ x = authLoginLine ∨ x = b64Line u ∨ x = b64Line pw := by
  obtain ⟨w, dbg, rs⟩ := s
  intro x hx
  rcases rs with _ | ⟨r1, rs⟩
  · cases v <;> simp [authStage, Sess.debug, Sess.write, Sess.read, exWrites] at hx <;> tauto
  · by_cases h1 : getStatus r1 = some "334"
    · rcases rs with _ | ⟨r2, rs⟩
      · cases v <;>
          simp [authStage, Sess.debug, Sess.write, Sess.read, exWrites, h1] at hx <;> tauto
      · by_cases h2 : getStatus r2 = some "334"
        · rcases rs with _ | ⟨r3, rs⟩
          · cases v <;>
              simp [authStage, Sess.debug, Sess.write, Sess.read, exWrites, h1, h2] at hx <;>
              tauto
          · by_cases h3 : getStatus r3 = some "235" <;> cases v <;>
              simp [authStage, Sess.debug, Sess.write, Sess.read, exWrites, h1, h2, h3]
                at hx <;>
              tauto
        · cases v <;>
            simp [authStage, Sess.debug, Sess.write, Sess.read, exWrites, h1, h2] at hx <;>
            tauto
    · cases v <;>
        simp [authStage, Sess.debug, Sess.write, Sess.read, exWrites, h1] at hx <;> tauto

theorem authStage_writes_mono (v : Bool) (u pw : String) (s : Sess) :
    ∀ x ∈ s.writes, x ∈ exWrites (authStage v u pw s) := by
  obtain ⟨w, dbg, rs⟩ := s
  intro x hx
  simp only [Sess.writes] at hx
  rcases rs with _ | ⟨r1, rs⟩
  · cases v <;> simp [authStage, Sess.debug, Sess.write, Sess.read, exWrites, hx]
  · by_cases h1 : getStatus r1 = some "334"
    · rcases rs with _ | ⟨r2, rs⟩
      · cases v <;> simp [authStage, Sess.debug, Sess.write, Sess.read, exWrites, h1, hx]
      · by_cases h2 : getStatus r2 = some "334"
        · rcases rs with _ | ⟨r3, rs⟩
          · cases v <;>
              simp [authStage, Sess.debug, Sess.write, Sess.read, exWrites, h1, h2, hx]
          · by_cases h3 : getStatus r3 = some "235" <;> cases v <;>
              simp [authStage, Sess.debug, Sess.write, Sess.read, exWrites, h1, h2, h3, hx]
        · cases v <;> simp [authStage, Sess.debug, Sess.write, Sess.read, exWrites, h1, h2, hx]
    · cases v <;> simp [authStage, Sess.debug, Sess.write, Sess.read, exWrites, h1, hx]

theorem authStage_writes_login (v : Bool) (u pw : String) (s : Sess) :
    authLoginLine ∈ exWrites (authStage v u pw s) := by
  obtain ⟨w, dbg, rs⟩ := s
  rcases rs with _ | ⟨r1, rs⟩
  · cases v <;> simp [authStage, Sess.debug, Sess.write, Sess.read, exWrites]
  · by_cases h1 : getStatus r1 = some "334"
    · rcases rs with _ | ⟨r2, rs⟩
      · cases v <;> simp [authStage, Sess.debug, Sess.write, Sess.read, exWrites, h1]
      · by_cases h2 : getStatus r2 = some "334"
        · rcases rs with _ | ⟨r3, rs⟩
          · cases v <;> simp [authStage, Sess.debug, Sess.write, Sess.read, exWrites, h1, h2]
          · by_cases h3 : getStatus r3 = some "235" <;> cases v <;>
              simp [authStage, Sess.debug, Sess.write, Sess.read, exWrites, h1, h2, h3]
        · cases v <;> simp [authStage, Sess.debug, Sess.write, Sess.read, exWrites, h1, h2]
    · cases v <;> simp [authStage, Sess.debug, Sess.write, Sess.read, exWrites, h1]

theorem authStage_tag (v : Bool) (u pw : String) (s : Sess) (st : Stage) (s' : Sess)
    (h : authStage v u pw s = .error (st, s')) : st = Stage.auth := by
  obtain ⟨w, dbg, rs⟩ := s
  rcases rs with _ | ⟨r1, rs⟩
  · cases v <;> simp [authStage, Sess.debug, Sess.write, Sess.read] at h <;> tauto
  · by_cases h1 : getStatus r1 = some "334"
    · rcases rs with _ | ⟨r2, rs⟩
      · cases v <;> simp [authStage, Sess.debug, Sess.write, Sess.read, h1] at h <;> tauto
      · by_cases h2 : getStatus r2 = some "334"
        · rcases rs with _ | ⟨r3, rs⟩
          · cases v <;>
              simp [authStage, Sess.debug, Sess.write, Sess.read, h1, h2] at h <;> tauto
          · by_cases h3 : getStatus r3 = some "235" <;> cases v <;>
              simp [authStage, Sess.debug, Sess.write, Sess.read, h1, h2, h3] at h <;> tauto
        · cases v <;> simp [authStage, Sess.debug, Sess.write, Sess.read, h1, h2] at h <;> tauto
    · cases v <;> simp [authStage, Sess.debug, Sess.write, Sess.read, h1] at h <;> tauto

theorem mailStage_writes_subset (v : Bool) (snd rcp : String) (s : Sess) :
    ∀ x ∈ exWrites (mailStage v snd rcp s),
      x ∈ s.writes ∨ x = mailFromLine snd ∨ x = rcptToLine rcp := by
  obtain ⟨w, dbg, rs⟩ := s
  intro x hx
  rcases rs with _ | ⟨r1, rs⟩
  · cases v <;> simp [mailStage, Sess.debug, Sess.write, Sess.read, exWrites] at hx <;> tauto
  · by_cases h1 : getStatus r1 = some "250"
    · rcases rs with _ | ⟨r2, rs⟩
      · cases v <;>
          simp [mailStage, Sess.debug, Sess.write, Sess.read, exWrites, h1] at hx <;> tauto
      · by_cases h2 : getStatus r2 = some "250" <;>
          by_cases h3 : getStatus r2 = some "251" <;> cases v <;>
          simp [mailStage, Sess.debug, Sess.write, Sess.read, exWrites, h1, h2, h3] at hx <;>
          tauto
    · cases v <;>
        simp [mailStage, Sess.debug, Sess.write, Sess.read, exWrites, h1] at hx <;> tauto

theorem mailStage_writes_mono (v : Bool) (snd rcp : String) (s : Sess) :
    ∀ x ∈ s.writes, x ∈ exWrites (mailStage v snd rcp s) := by
  obtain ⟨w, dbg, rs⟩ := s
  intro x hx
  simp only [Sess.writes] at hx
  rcases rs with _ | ⟨r1, rs⟩
  · cases v <;> simp [mailStage, Sess.debug, Sess.write, Sess.read, exWrites, hx]
  · by_cases h1 : getStatus r1 = some "250"
    · rcases rs with _ | ⟨r2, rs⟩
      · cases v <;> simp [mailStage, Sess.debug, Sess.write, Sess.read, exWrites, h1, hx]
      · by_cases h2 : getStatus r2 = some "250" <;>
          by_cases h3 : getStatus r2 = some "251" <;> cases v <;>
          simp [mailStage, Sess.debug, Sess.write, Sess.read, exWrites, h1, h2, h3, hx]
    · cases v <;> simp [mailStage, Sess.debug, Sess.write, Sess.read, exWrites, h1, hx]

theorem mailStage_tag (v : Bool) (snd rcp : String) (s : Sess) (st : Stage) (s' : Sess)
    (h : mailStage v snd rcp s = .error (st, s')) :
    st = Stage.mailFrom ∨ st = Stage.rcptTo := by
  obtain ⟨w, dbg, rs⟩ := s
  rcases rs with _ | ⟨r1, rs⟩
  · cases v <;> simp [mailStage, Sess.debug, Sess.write, Sess.read] at h <;> tauto
  · by_cases h1 : getStatus r1 = some "250"
    · rcases rs with _ | ⟨r2, rs⟩
      · cases v <;> simp [mailStage, Sess.debug, Sess.write, Sess.read, h1] at h <;> tauto
      · by_cases h2 : getStatus r2 = some "250" <;>
          by_cases h3 : getStatus r2 = some "251" <;> cases v <;>
          simp [mailStage, Sess.debug, Sess.write, Sess.read, h1, h2, h3] at h <;> tauto
    · cases v <;> simp [mailStage, Sess.debug, Sess.write, Sess.read, h1] at h <;> tauto

theorem dataStage_writes_subset (v : Bool) (snd rcp : String) (s : Sess) :
    ∀ x ∈ exWrites (dataStage v snd rcp s),
      x ∈ s.writes ∨ x = dataLine ∨ x = messageBody snd rcp := by
  obtain ⟨w, dbg, rs⟩ := s
  intro x hx
  rcases rs with _ | ⟨r1, rs⟩
  · cases v <;> simp [dataStage, Sess.debug, Sess.write, Sess.read, exWrites] at hx <;> tauto
  · by_cases h1 : getStatus r1 = some "354"
    · rcases rs with _ | ⟨r2, rs⟩
      · cases v <;>
          simp [dataStage, Sess.debug, Sess.write, Sess.read, exWrites, h1] at hx <;> tauto
      · by_cases h2 : getStatus r2 = some "250" <;> cases v <;>
          simp [dataStage, Sess.debug, Sess.write, Sess.read, exWrites, h1, h2] at hx <;>
          tauto
    · cases v <;>
        simp [dataStage, Sess.debug, Sess.write, Sess.read, exWrites, h1] at hx <;> tauto

theorem dataStage_tag (v : Bool) (snd rcp : String) (s : Sess) (st : Stage) (s' : Sess)
    (h : dataStage v snd rcp s = .error (st, s')) :
    st = Stage.dataStart ∨ st = Stage.dataBody := by
  obtain ⟨w, dbg, rs⟩ := s
  rcases rs with _ | ⟨r1, rs⟩
  · cases v <;> simp [dataStage, Sess.debug, Sess.write, Sess.read] at h <;> tauto
  · by_cases h1 : getStatus r1 = some "354"
    · rcases rs with _ | ⟨r2, rs⟩
      · cases v <;> simp [dataStage, Sess.debug, Sess.write, Sess.read, h1] at h <;> tauto
      · by_cases h2 : getStatus r2 = some "250" <;> cases v <;>
          simp [dataStage, Sess.debug, Sess.write, Sess.read, h1, h2] at h <;> tauto
    · cases v <;> simp [dataStage, Sess.debug, Sess.write, Sess.read, h1] at h <;> tauto

theorem dataStage_body_error (v : Bool) (snd rcp : String) (s : Sess) (s' : Sess)
    (h : dataStage v snd rcp s = .error (Stage.dataBody, s')) :
    s'.writes = s.writes ++ [dataLine, messageBody snd rcp] := by
  obtain ⟨w, dbg, rs⟩ := s
  rcases rs with _ | ⟨r1, rs⟩
  · cases v <;> simp [dataStage, Sess.debug, Sess.write, Sess.read] at h <;>
      (try subst h) <;> simp_all
  · by_cases h1 : getStatus r1 = some "354"
    · rcases rs with _ | ⟨r2, rs⟩
      · cases v <;> simp [dataStage, Sess.debug, Sess.write, Sess.read, h1] at h <;>
          (try subst h) <;> simp_all
      · by_cases h2 : getStatus r2 = some "250" <;> cases v <;>
          simp [dataStage, Sess.debug, Sess.write, Sess.read, h1, h2] at h <;>
          (try subst h) <;> simp_all
    · cases v <;> simp [dataStage, Sess.debug, Sess.write, Sess.read, h1] at h <;>
        (try subst h) <;> simp_all

/-! Head characters of the command lines, used to tell them apart. -/

theorem ne_of_heads {a b : String} {c c' : Char} (ha : a.data.head? = some c)
    (hb : b.data.head? = some c') (hcc : c ≠ c') : a ≠ b := by
  intro e
  subst e
  rw [ha] at hb
  injection hb with hb
  exact hcc hb

theorem ehloLine_head (d : String) : (ehloLine d).data.head? = some 'E' := by
  rw [ehloLine, String.append_assoc]
  exact head_of_append _ _ _ rfl

theorem heloLine_head (d : String) : (heloLine d).data.head? = some 'H' := by
  rw [heloLine, String.append_assoc]
  exact head_of_append _ _ _ rfl

theorem mailFromLine_head (snd : String) : (mailFromLine snd).data.head? = some 'M' := by
  rw [mailFromLine, String.append_assoc]
  exact head_of_append _ _ _ rfl

theorem rcptToLine_head (rcp : String) : (rcptToLine rcp).data.head? = some 'R' := by
  rw [rcptToLine, String.append_assoc]
  exact head_of_append _ _ _ rfl

theorem messageBody_head (snd rcp : String) :
    (messageBody snd rcp).data.head? = some 'F' := by
  rw [messageBody, String.append_assoc, String.append_assoc, String.append_assoc]
  exact head_of_append _ _ _ rfl

theorem dataLine_head : dataLine.data.head? = some 'D' := rfl

theorem quitLine_head : quitLine.data.head? = some 'Q' := rfl

theorem authLoginLine_head : authLoginLine.data.head? = some 'A' := rfl

/-! Chain-level bookkeeping. -/

/-- Everything the stage chain writes is one of the fixed command lines (the
authentication lines only when a password was configured). -/
theorem sessionChain_writes_subset (o : ClientOpts) (s : Sess) :
    ∀ x ∈ exWrites (sessionChain o s),
      x ∈ s.writes ∨ x = ehloLine (domainStr o.sender) ∨ x = heloLine (domainStr o.sender) ∨
      (∃ pw, o.password = some pw ∧
        (x = authLoginLine ∨ x = b64Line o.user ∨ x = b64Line pw)) ∨
      x = mailFromLine o.sender ∨ x = rcptToLine o.recipient ∨
      x = dataLine ∨ x = messageBody o.sender o.recipient := by
  intro x hx
  rw [sessionChain] at hx
  cases hb : bannerStage o.verbose s with
  | error e =>
    obtain ⟨st, s1⟩ := e
    simp only [hb] at hx
    simp only [exWrites] at hx
    have hxs : x ∈ exWrites (bannerStage o.verbose s) := by
      rw [hb]; simpa [exWrites] using hx
    exact Or.inl ((bannerStage_writes o.verbose s x).1 hxs)
  | ok s1 =>
    simp only [hb] at hx
    have hs1 : ∀ y, y ∈ s1.writes → y ∈ s.writes := by
      intro y hy
      have hys : y ∈ exWrites (bannerStage o.verbose s) := by
        rw [hb]; simpa [exWrites] using hy
      exact (bannerStage_writes o.verbose s y).1 hys
    cases hg : greetingStage o.verbose (domainStr o.sender) s1 with
    | error e =>
      obtain ⟨st, s2⟩ := e
      simp only [hg] at hx
      simp only [exWrites] at hx
      have hxs : x ∈ exWrites (greetingStage o.verbose (domainStr o.sender) s1) := by
        rw [hg]; simpa [exWrites] using hx
      rcases greetingStage_writes_subset _ _ _ x hxs with h | h | h
      · exact Or.inl (hs1 x h)
      · tauto
      · tauto
    | ok s2 =>
      simp only [hg] at hx
      have hs2 : ∀ y, y ∈ s2.writes →
          y ∈ s.writes ∨ y = ehloLine (domainStr o.sender) ∨
            y = heloLine (domainStr o.sender) := by
        intro y hy
        have hys : y ∈ exWrites (greetingStage o.verbose (domainStr o.sender) s1) := by
          rw [hg]; simpa [exWrites] using hy
        rcases greetingStage_writes_subset _ _ _ y hys with h | h | h
        · exact Or.inl (hs1 y h)
        · tauto
        · tauto
      cases hp : o.password with
      | none =>
        simp only [hp] at hx
        cases hm : mailStage o.verbose o.sender o.recipient s2 with
        | error e =>
          obtain ⟨st, s3⟩ := e
          simp only [hm] at hx
          simp only [exWrites] at hx
          have hxs : x ∈ exWrites (mailStage o.verbose o.sender o.recipient s2) := by
            rw [hm]; simpa [exWrites] using hx
          rcases mailStage_writes_subset _ _ _ _ x hxs with h | h | h
          · rcases hs2 x h with h' | h' | h' <;> tauto
          · tauto
          · tauto
        | ok s3 =>
          simp only [hm] at hx
          have hxs : x ∈ exWrites (dataStage o.verbose o.sender o.recipient s3) := hx
          rcases dataStage_writes_subset _ _ _ _ x hxs with h | h | h
          · have hys : x ∈ exWrites (mailStage o.verbose o.sender o.recipient s2) := by
              rw [hm]; simpa [exWrites] using h
            rcases mailStage_writes_subset _ _ _ _ x hys with h' | h' | h'
            · rcases hs2 x h' with h'' | h'' | h'' <;> tauto
            · tauto
            · tauto
          · tauto
          · tauto
      | some pw =>
        simp only [hp] at hx
        cases ha : authStage o.verbose o.user pw s2 with
        | error e =>
          obtain ⟨st, s3⟩ := e
          simp only [ha] at hx
          simp only [exWrites] at hx
          have hxs : x ∈ exWrites (authStage o.verbose o.user pw s2) := by
            rw [ha]; simpa [exWrites] using hx
          rcases authStage_writes_subset _ _ _ _ x hxs with h | h | h | h
          · rcases hs2 x h with h' | h' | h' <;> tauto
          · exact Or.inr (Or.inr (Or.inr (Or.inl ⟨pw, rfl, Or.inl h⟩)))
          · exact Or.inr (Or.inr (Or.inr (Or.inl ⟨pw, rfl, Or.inr (Or.inl h)⟩)))
          · exact Or.inr (Or.inr (Or.inr (Or.inl ⟨pw, rfl, Or.inr (Or.inr h)⟩)))
        | ok s3 =>
          simp only [ha] at hx
          have hs3 : ∀ y, y ∈ s3.writes →
              y ∈ s.writes ∨ y = ehloLine (domainStr o.sender) ∨
                y = heloLine (domainStr o.sender) ∨ y = authLoginLine ∨
                y = b64Line o.user ∨ y = b64Line pw := by
            intro y hy
            have hys : y ∈ exWrites (authStage o.verbose o.user pw s2) := by
              rw [ha]; simpa [exWrites] using hy
            rcases authStage_writes_subset _ _ _ _ y hys with h | h | h | h
            · rcases hs2 y h with h' | h' | h' <;> tauto
            · tauto
            · tauto
            · tauto
          cases hm : mailStage o.verbose o.sender o.recipient s3 with
          | error e =>
            obtain ⟨st, s4⟩ := e
            simp only [hm] at hx
            simp only [exWrites] at hx
            have hxs : x ∈ exWrites (mailStage o.verbose o.sender o.recipient s3) := by
              rw [hm]; simpa [exWrites] using hx
            rcases mailStage_writes_subset _ _ _ _ x hxs with h | h | h
            · rcases hs3 x h with h' | h' | h' | h' | h' | h'
              · tauto
              · tauto
              · tauto
              · exact Or.inr (Or.inr (Or.inr (Or.inl ⟨pw, rfl, Or.inl h'⟩)))
              · exact Or.inr (Or.inr (Or.inr (Or.inl ⟨pw, rfl, Or.inr (Or.inl h')⟩)))
              · exact Or.inr (Or.inr (Or.inr (Or.inl ⟨pw, rfl, Or.inr (Or.inr h')⟩)))
            · tauto
            · tauto
          | ok s4 =>
            simp only [hm] at hx
            have hxs : x ∈ exWrites (dataStage o.verbose o.sender o.recipient s4) := hx
            rcases dataStage_writes_subset _ _ _ _ x hxs with h | h | h
            · have hys : x ∈ exWrites (mailStage o.verbose o.sender o.recipient s3) := by
                rw [hm]; simpa [exWrites] using h
              rcases mailStage_writes_subset _ _ _ _ x hys with h' | h' | h'
              · rcases hs3 x h' with h'' | h'' | h'' | h'' | h'' | h''
                · tauto
                · tauto
                · tauto
                · exact Or.inr (Or.inr (Or.inr (Or.inl ⟨pw, rfl, Or.inl h''⟩)))
                · exact Or.inr (Or.inr (Or.inr (Or.inl ⟨pw, rfl, Or.inr (Or.inl h'')⟩)))
                · exact Or.inr (Or.inr (Or.inr (Or.inl ⟨pw, rfl, Or.inr (Or.inr h'')⟩)))
              · tauto
              · tauto
            · tauto
            · tauto

theorem dataStage_writes_mono (v : Bool) (snd rcp : String) (s : Sess) :
    ∀ x ∈ s.writes, x ∈ exWrites (dataStage v snd rcp s) := by
  obtain ⟨w, dbg, rs⟩ := s
  intro x hx
  simp only [Sess.writes] at hx
  rcases rs with _ | ⟨r1, rs⟩
  · cases v <;> simp [dataStage, Sess.debug, Sess.write, Sess.read, exWrites, hx]
  · by_cases h1 : getStatus r1 = some "354"
    · rcases rs with _ | ⟨r2, rs⟩
      · cases v <;> simp [dataStage, Sess.debug, Sess.write, Sess.read, exWrites, h1, hx]
      · by_cases h2 : getStatus r2 = some "250" <;> cases v <;>
          simp [dataStage, Sess.debug, Sess.write, Sess.read, exWrites, h1, h2, hx]
    · cases v <;> simp [dataStage, Sess.debug, Sess.write, Sess.read, exWrites, h1, hx]

/-- When a password is configured and the run does not fail at the Banner or
Greeting stage, the chain has written `AUTH LOGIN`. -/
theorem sessionChain_auth_written (o : ClientOpts) (pw : String)
    (hp : o.password = some pw) (s : Sess)
    (hb' : failedAt (sessionChain o s) ≠ some Stage.banner)
    (hg' : failedAt (sessionChain o s) ≠ some Stage.greeting) :
    authLoginLine ∈ exWrites (sessionChain o s) := by
  cases hb : bannerStage o.verbose s with
  | error e =>
    obtain ⟨st, s1⟩ := e
    have hst := bannerStage_tag o.verbose s st s1 hb
    subst hst
    have hc : sessionChain o s = .error (Stage.banner, s1) := by
      rw [sessionChain]; simp only [hb]
    exact absurd (by rw [hc]; rfl) hb'
  | ok s1 =>
    cases hg : greetingStage o.verbose (domainStr o.sender) s1 with
    | error e =>
      obtain ⟨st, s2⟩ := e
      have hst := greetingStage_tag _ _ _ st s2 hg
      subst hst
      have hc : sessionChain o s = .error (Stage.greeting, s2) := by
        rw [sessionChain]; simp only [hb, hg]
      exact absurd (by rw [hc]; rfl) hg'
    | ok s2 =>
      cases ha : authStage o.verbose o.user pw s2 with
      | error e =>
        obtain ⟨st, s3⟩ := e
        have hc : sessionChain o s = .error (st, s3) := by
          rw [sessionChain]; simp only [hb, hg, hp, ha]
        rw [hc]
        have hl := authStage_writes_login o.verbose o.user pw s2
        rw [ha] at hl
        simpa [exWrites] using hl
      | ok s3 =>
        have hauth : authLoginLine ∈ s3.writes := by
          have hl := authStage_writes_login o.verbose o.user pw s2
          rw [ha] at hl
          simpa [exWrites] using hl
        cases hm : mailStage o.verbose o.sender o.recipient s3 with
        | error e =>
          obtain ⟨st, s4⟩ := e
          have hc : sessionChain o s = .error (st, s4) := by
            rw [sessionChain]; simp only [hb, hg, hp, ha, hm]
          rw [hc]
          have hl := mailStage_writes_mono o.verbose o.sender o.recipient s3 authLoginLine hauth
          rw [hm] at hl
          simpa [exWrites] using hl
        | ok s4 =>
          have hauth4 : authLoginLine ∈ s4.writes := by
            have hl := mailStage_writes_mono o.verbose o.sender o.recipient s3 authLoginLine hauth
            rw [hm] at hl
            simpa [exWrites] using hl
          have hc : sessionChain o s = dataStage o.verbose o.sender o.recipient s4 := by
            rw [sessionChain]; simp only [hb, hg, hp, ha, hm]
          rw [hc]
          exact dataStage_writes_mono o.verbose o.sender o.recipient s4 authLoginLine hauth4

/-- A run that fails at the Data-body stage has the fixed message body as its
very last write: the body was transmitted, and nothing (in particular no
QUIT) was written after it. -/
theorem sessionChain_dataBody_writes (o : ClientOpts) (s : Sess) (s' : Sess)
    (h : sessionChain o s = .error (Stage.dataBody, s')) :
    ∃ w', s'.writes = w' ++ [messageBody o.sender o.recipient] := by
  rw [sessionChain] at h
  cases hb : bannerStage o.verbose s with
  | error e =>
    obtain ⟨st, s1⟩ := e
    simp only [hb, Except.error.injEq, Prod.mk.injEq] at h
    obtain ⟨h1, _⟩ := h
    have hst := bannerStage_tag o.verbose s st s1 hb
    rw [h1] at hst
    cases hst
  | ok s1 =>
    simp only [hb] at h
    cases hg : greetingStage o.verbose (domainStr o.sender) s1 with
    | error e =>
      obtain ⟨st, s2⟩ := e
      simp only [hg, Except.error.injEq, Prod.mk.injEq] at h
      obtain ⟨h1, _⟩ := h
      have hst := greetingStage_tag _ _ _ st s2 hg
      rw [h1] at hst
      cases hst
    | ok s2 =>
      simp only [hg] at h
      cases hp : o.password with
      | none =>
        simp only [hp] at h
        cases hm : mailStage o.verbose o.sender o.recipient s2 with
        | error e =>
          obtain ⟨st, s3⟩ := e
          simp only [hm, Except.error.injEq, Prod.mk.injEq] at h
          obtain ⟨h1, _⟩ := h
          have hst := mailStage_tag _ _ _ _ st s3 hm
          rw [h1] at hst
          rcases hst with h' | h' <;> cases h'
        | ok s3 =>
          simp only [hm] at h
          have heq := dataStage_body_error o.verbose o.sender o.recipient s3 s' h
          exact ⟨s3.writes ++ [dataLine], by simp [heq]⟩
      | some pw =>
        simp only [hp] at h
        cases ha : authStage o.verbose o.user pw s2 with
        | error e =>
          obtain ⟨st, s3⟩ := e
          simp only [ha, Except.error.injEq, Prod.mk.injEq] at h
          obtain ⟨h1, _⟩ := h
          have hst := authStage_tag _ _ _ _ st s3 ha
          rw [h1] at hst
          cases hst
        | ok s3 =>
          simp only [ha] at h
          cases hm : mailStage o.verbose o.sender o.recipient s3 with
          | error e =>
            obtain ⟨st, s4⟩ := e
            simp only [hm, Except.error.injEq, Prod.mk.injEq] at h
            obtain ⟨h1, _⟩ := h
            have hst := mailStage_tag _ _ _ _ st s4 hm
            rw [h1] at hst
            rcases hst with h' | h' <;> cases h'
          | ok s4 =>
            simp only [hm] at h
            have heq := dataStage_body_error o.verbose o.sender o.recipient s4 s' h
            exact ⟨s4.writes ++ [dataLine], by simp [heq]⟩

/-! Proofs about the mail initiation stage. -/

/-- Claim C3. First conjunct: after MAIL FROM was accepted (250) the stage
writes `RCPT TO: <recipient>`, and it succeeds exactly when the reply's status
code is 250 or 251; every other code fails it at the Recipient-To stage.
Second conjunct, at run level: with all other scripted replies accepting, the
run completes (in particular it proceeded to the Data stages) exactly when the
RCPT TO reply's code is 250 or 251, and otherwise terminates failed at the
Recipient-To stage. -/
theorem rcpt_accepts_250_and_251 :
    (∀ (v : Bool) (snd rcp : String) (w dbg : List String) (r1 r2 : String)
        (rest : List String), getStatus r1 = some "250" →
      exWrites (mailStage v snd rcp ⟨w, dbg, r1 :: r2 :: rest⟩) =
        w ++ [mailFromLine snd, rcptToLine rcp] ∧
      failedAt (mailStage v snd rcp ⟨w, dbg, r1 :: r2 :: rest⟩) =
        (if getStatus r2 = some "250" ∨ getStatus r2 = some "251" then none
          else some Stage.rcptTo)) ∧
    (∀ (o : ClientOpts) (r : String), o.password = none →
      (run o true ["220 x", "250 x", "250 x", r, "354 x", "250 x"]).outcome =
        (if getStatus r = some "250" ∨ getStatus r = some "251" then Outcome.completed
          else Outcome.failed Stage.rcptTo)) := by
  constructor
  · intro v snd rcp w dbg r1 r2 rest h
    cases v <;>
      by_cases h250 : getStatus r2 = some "250" <;>
        by_cases h251 : getStatus r2 = some "251" <;>
          simp [mailStage, Sess.debug, Sess.write, Sess.read, exWrites, failedAt, h,
            h250, h251]
  · intro o r hp
    have e250 : getStatus "250 x" = some "250" := rfl
    have e354 : getStatus "354 x" = some "354" := rfl
    have h502 : (getStatus "250 x" = some "502") ↔ False := by decide
    have h220ne : (getStatus "220 x" ≠ some "220") ↔ False := by decide
    have h250ne : (getStatus "250 x" ≠ some "250") ↔ False := by decide
    have h354ne : (getStatus "354 x" ≠ some "354") ↔ False := by decide
    by_cases hv : o.verbose = true <;>
      by_cases h250 : getStatus r = some "250" <;>
        by_cases h251 : getStatus r = some "251" <;>
          simp [run, sessionChain, bannerStage, greetingStage, mailStage, dataStage,
            Sess.debug, Sess.write, Sess.read, hp, hv, h250, h251,
            h502, h220ne, h250ne, h354ne, e250, e354]

/-- Claim C3 witness: a `251 forwarding` reply to RCPT TO is accepted and the
run completes. -/
theorem rcpt_accepts_250_and_251_witness :
    (run ⟨"alice", "a@x", "b@y", none, false⟩ true
        ["220 x", "250 x", "250 x", "251 forwarding", "354 x", "250 x"]).outcome =
      (if getStatus "251 forwarding" = some "250" ∨ getStatus "251 forwarding" = some "251"
        then Outcome.completed else Outcome.failed Stage.rcptTo) :=
  rcpt_accepts_250_and_251.2 ⟨"alice", "a@x", "b@y", none, false⟩ "251 forwarding" rfl

/-! Proofs about the authentication sub-chain. -/

theorem eqStr {a b : String} (h : a.data = b.data) : a = b := by
  cases a; cases b; exact congrArg String.mk h

/-- With no password configured, every line the chain writes is one of the six
non-authentication command lines. -/
theorem sessionChain_lines_nopw (o : ClientOpts) (hp : o.password = none)
    (replies : List String) (x : String)
    (hx : x ∈ exWrites (sessionChain o ⟨[], [], replies⟩)) :
    x = ehloLine (domainStr o.sender) ∨ x = heloLine (domainStr o.sender) ∨
    x = mailFromLine o.sender ∨ x = rcptToLine o.recipient ∨
    x = dataLine ∨ x = messageBody o.sender o.recipient := by
  rcases sessionChain_writes_subset o ⟨[], [], replies⟩ x hx with
    h | h | h | ⟨pw, hpw, _⟩ | h | h | h | h
  · cases h
  · tauto
  · tauto
  · rw [hp] at hpw; cases hpw
  · tauto
  · tauto
  · tauto
  · tauto

/-- Claim C2. The authentication sub-chain runs exactly when a password is
configured. First conjunct: with no password, no run ever writes `AUTH LOGIN`.
Second: with no password the chain is literally banner → greeting → mail →
data, proceeding from Greeting success directly to Mail-From. Third: with a
password, any run that gets past the Greeting stage has written `AUTH LOGIN`.
Fourth: the sub-chain on three scripted replies sends `AUTH LOGIN` and
requires 334, then base64(user) as a standalone line and requires 334, then
base64(password) as a standalone line and requires 235, failing the run at
the authentication stage on any other code. -/
theorem auth_chain_iff_password :
    (∀ (o : ClientOpts) (k : Bool) (replies : List String), o.password = none →
      authLoginLine ∉ (run o k replies).writes) ∧
    (∀ (o : ClientOpts) (s : Sess), o.password = none →
      sessionChain o s =
        match bannerStage o.verbose s with
        | .error e => .error e
        | .ok s1 =>
          match greetingStage o.verbose (domainStr o.sender) s1 with
          | .error e => .error e
          | .ok s2 =>
            match mailStage o.verbose o.sender o.recipient s2 with
            | .error e => .error e
            | .ok s3 => dataStage o.verbose o.sender o.recipient s3) ∧
    (∀ (o : ClientOpts) (pw : String) (replies : List String), o.password = some pw →
      (run o true replies).outcome ≠ Outcome.failed Stage.banner →
      (run o true replies).outcome ≠ Outcome.failed Stage.greeting →
      authLoginLine ∈ (run o true replies).writes) ∧
    (∀ (v : Bool) (u pw : String) (w dbg : List String) (r1 r2 r3 : String)
        (rest : List String),
      (getStatus r1 ≠ some "334" →
        exWrites (authStage v u pw ⟨w, dbg, r1 :: r2 :: r3 :: rest⟩) =
          w ++ [authLoginLine] ∧
        failedAt (authStage v u pw ⟨w, dbg, r1 :: r2 :: r3 :: rest⟩) = some Stage.auth) ∧
      (getStatus r1 = some "334" → getStatus r2 ≠ some "334" →
        exWrites (authStage v u pw ⟨w, dbg, r1 :: r2 :: r3 :: rest⟩) =
          w ++ [authLoginLine, b64Line u] ∧
        failedAt (authStage v u pw ⟨w, dbg, r1 :: r2 :: r3 :: rest⟩) = some Stage.auth) ∧
      (getStatus r1 = some "334" → getStatus r2 = some "334" →
        exWrites (authStage v u pw ⟨w, dbg, r1 :: r2 :: r3 :: rest⟩) =
          w ++ [authLoginLine, b64Line u, b64Line pw] ∧
        failedAt (authStage v u pw ⟨w, dbg, r1 :: r2 :: r3 :: rest⟩) =
          (if getStatus r3 = some "235" then none else some Stage.auth))) := by
  refine ⟨?_, ?_, ?_, ?_⟩
  · intro o k replies hp hmem
    cases k
    · simp [run] at hmem
    · cases hc : sessionChain o ⟨[], [], replies⟩ with
      | error e =>
        obtain ⟨st, s'⟩ := e
        simp only [run, if_true, hc] at hmem
        have hx : authLoginLine ∈ exWrites (sessionChain o ⟨[], [], replies⟩) := by
          rw [hc]; simpa [exWrites] using hmem
        rcases sessionChain_lines_nopw o hp replies authLoginLine hx with
          h | h | h | h | h | h
        · exact absurd h (ne_of_heads authLoginLine_head (ehloLine_head _) (by decide))
        · exact absurd h (ne_of_heads authLoginLine_head (heloLine_head _) (by decide))
        · exact absurd h (ne_of_heads authLoginLine_head (mailFromLine_head _) (by decide))
        · exact absurd h (ne_of_heads authLoginLine_head (rcptToLine_head _) (by decide))
        · exact absurd h (ne_of_heads authLoginLine_head dataLine_head (by decide))
        · exact absurd h (ne_of_heads authLoginLine_head (messageBody_head _ _) (by decide))
      | ok s' =>
        simp only [run, if_true, hc, Sess.debug, Sess.write] at hmem
        have hmem' : authLoginLine ∈ s'.writes ∨ authLoginLine = quitLine := by
          by_cases hv : o.verbose = true <;> simp [hv] at hmem <;> tauto
        rcases hmem' with hmem' | hmem'
        · have hx : authLoginLine ∈ exWrites (sessionChain o ⟨[], [], replies⟩) := by
            rw [hc]; simpa [exWrites] using hmem'
          rcases sessionChain_lines_nopw o hp replies authLoginLine hx with
            h | h | h | h | h | h
          · exact absurd h (ne_of_heads authLoginLine_head (ehloLine_head _) (by decide))
          · exact absurd h (ne_of_heads authLoginLine_head (heloLine_head _) (by decide))
          · exact absurd h (ne_of_heads authLoginLine_head (mailFromLine_head _) (by decide))
          · exact absurd h (ne_of_heads authLoginLine_head (rcptToLine_head _) (by decide))
          · exact absurd h (ne_of_heads authLoginLine_head dataLine_head (by decide))
          · exact absurd h (ne_of_heads authLoginLine_head (messageBody_head _ _) (by decide))
        · exact absurd hmem' (ne_of_heads authLoginLine_head quitLine_head (by decide))
  · intro o s hp
    rw [sessionChain]
    simp only [hp]
  · intro o pw replies hp hb' hg'
    have hb'' : failedAt (sessionChain o ⟨[], [], replies⟩) ≠ some Stage.banner := by
      intro hfa
      cases hc : sessionChain o ⟨[], [], replies⟩ with
      | error e =>
        obtain ⟨st, s'⟩ := e
        rw [hc] at hfa
        injection hfa with hfa
        subst hfa
        exact hb' (by simp [run, hc])
      | ok s' => rw [hc] at hfa; cases hfa
    have hg'' : failedAt (sessionChain o ⟨[], [], replies⟩) ≠ some Stage.greeting := by
      intro hfa
      cases hc : sessionChain o ⟨[], [], replies⟩ with
      | error e =>
        obtain ⟨st, s'⟩ := e
        rw [hc] at hfa
        injection hfa with hfa
        subst hfa
        exact hg' (by simp [run, hc])
      | ok s' => rw [hc] at hfa; cases hfa
    have hx := sessionChain_auth_written o pw hp ⟨[], [], replies⟩ hb'' hg''
    cases hc : sessionChain o ⟨[], [], replies⟩ with
    | error e =>
      obtain ⟨st, s'⟩ := e
      rw [hc] at hx
      simp only [exWrites] at hx
      simp [run, hc, hx]
    | ok s' =>
      rw [hc] at hx
      simp only [exWrites] at hx
      rcases hv : o.verbose <;> simp [run, hc, Sess.debug, Sess.write, hv, hx]
  · intro v u pw w dbg r1 r2 r3 rest
    refine ⟨?_, ?_, ?_⟩
    · intro h1
      cases v <;>
        simp [authStage, Sess.debug, Sess.write, Sess.read, exWrites, failedAt, h1]
    · intro h1 h2
      cases v <;>
        simp [authStage, Sess.debug, Sess.write, Sess.read, exWrites, failedAt, h1, h2]
    · intro h1 h2
      by_cases h3 : getStatus r3 = some "235" <;> cases v <;>
        simp [authStage, Sess.debug, Sess.write, Sess.read, exWrites, failedAt, h1, h2, h3]

/-- Claim C2 witness: a password-less run against a fully accepting scripted
server has no `AUTH LOGIN` among its writes (and, evaluating the same run, it
reaches `Completed`). -/
theorem auth_chain_iff_password_witness :
    authLoginLine ∉
      (run ⟨"alice", "alice@example.com", "bob@example.test", none, false⟩ true
        ["220 a", "250 b", "250 c", "250 d", "354 e", "250 f"]).writes :=
  auth_chain_iff_password.1
    ⟨"alice", "alice@example.com", "bob@example.test", none, false⟩ true
    ["220 a", "250 b", "250 c", "250 d", "354 e", "250 f"] rfl

/-! Proofs about the data stage. -/

/-- Claim C4. First conjunct: the Data stage sends `DATA` and transmits the
message body only after a 354 reply (on any other code it fails at Data-start
with no body sent); after 354 the body is sent and the stage succeeds exactly
on a 250 reply, failing at Data-body otherwise. Second: the transmitted body
ends with the terminating sequence CRLF `.` CRLF, i.e. its final line is a
lone dot. Third: every run failing at Data-body destroyed the transport, its
last write is the message body (so no QUIT was sent after it), and — for a
password-less configuration — no write of the whole run equals `QUIT`. -/
theorem data_stage_contract :
    (∀ (v : Bool) (snd rcp : String) (w dbg : List String) (r1 r2 : String)
        (rest : List String),
      (getStatus r1 ≠ some "354" →
        exWrites (dataStage v snd rcp ⟨w, dbg, r1 :: r2 :: rest⟩) = w ++ [dataLine] ∧
        failedAt (dataStage v snd rcp ⟨w, dbg, r1 :: r2 :: rest⟩) = some Stage.dataStart) ∧
      (getStatus r1 = some "354" →
        exWrites (dataStage v snd rcp ⟨w, dbg, r1 :: r2 :: rest⟩) =
          w ++ [dataLine, messageBody snd rcp] ∧
        failedAt (dataStage v snd rcp ⟨w, dbg, r1 :: r2 :: rest⟩) =
          (if getStatus r2 = some "250" then none else some Stage.dataBody))) ∧
    (∀ snd rcp : String, ∃ pre, messageBody snd rcp = pre ++ "\r\n.\r\n") ∧
    (∀ (o : ClientOpts) (replies : List String),
      (run o true replies).outcome = Outcome.failed Stage.dataBody →
      (run o true replies).teardown = Teardown.destroyed ∧
      (∃ w', (run o true replies).writes = w' ++ [messageBody o.sender o.recipient]) ∧
      (o.password = none → quitLine ∉ (run o true replies).writes)) := by
  refine ⟨?_, ?_, ?_⟩
  · intro v snd rcp w dbg r1 r2 rest
    constructor
    · intro h1
      cases v <;>
        simp [dataStage, Sess.debug, Sess.write, Sess.read, exWrites, failedAt, h1]
    · intro h1
      by_cases h2 : getStatus r2 = some "250" <;> cases v <;>
        simp [dataStage, Sess.debug, Sess.write, Sess.read, exWrites, failedAt, h1, h2]
  · intro snd rcp
    refine ⟨"From: <" ++ snd ++ ">\r\nTo: <" ++ rcp ++
      ">\r\nSubject: SMTP Test Email\r\n\r\nIf you have received this email, your SMTP server is configured correctly", ?_⟩
    apply eqStr
    simp only [messageBody, String.data_append]
    simp only [List.append_assoc]
    refine congrArg _ (congrArg _ (congrArg _ (congrArg _ ?_)))
    decide
  · intro o replies hout
    cases hc : sessionChain o ⟨[], [], replies⟩ with
    | ok s' => simp [run, hc] at hout
    | error e =>
      obtain ⟨st, s'⟩ := e
      simp only [run, if_true, hc] at hout
      injection hout with hout
      subst hout
      refine ⟨by simp [run, hc], ?_, ?_⟩
      · obtain ⟨w', hw'⟩ := sessionChain_dataBody_writes o ⟨[], [], replies⟩ s' hc
        exact ⟨w', by simp [run, hc, hw']⟩
      · intro hp hmem
        simp only [run, if_true, hc] at hmem
        have hx : quitLine ∈ exWrites (sessionChain o ⟨[], [], replies⟩) := by
          rw [hc]; simpa [exWrites] using hmem
        rcases sessionChain_lines_nopw o hp replies quitLine hx with
          h | h | h | h | h | h
        · exact absurd h (ne_of_heads quitLine_head (ehloLine_head _) (by decide))
        · exact absurd h (ne_of_heads quitLine_head (heloLine_head _) (by decide))
        · exact absurd h (ne_of_heads quitLine_head (mailFromLine_head _) (by decide))
        · exact absurd h (ne_of_heads quitLine_head (rcptToLine_head _) (by decide))
        · exact absurd h (ne_of_heads quitLine_head dataLine_head (by decide))
        · exact absurd h (ne_of_heads quitLine_head (messageBody_head _ _) (by decide))

/-- Claim C4 witness: a run whose server replies 354 to DATA and then 550 to
the body fails at Data-body, destroyed the transport, ends its writes with
the message body, and never wrote QUIT. -/
theorem data_stage_contract_witness :
    (run ⟨"alice", "a@x", "b@y", none, false⟩ true
        ["220 a", "250 b", "250 c", "250 d", "354 e", "550 no"]).teardown =
      Teardown.destroyed ∧
    (∃ w', (run ⟨"alice", "a@x", "b@y", none, false⟩ true
        ["220 a", "250 b", "250 c", "250 d", "354 e", "550 no"]).writes =
      w' ++ [messageBody "a@x" "b@y"]) ∧
    ((none : Option String) = none →
      quitLine ∉ (run ⟨"alice", "a@x", "b@y", none, false⟩ true
        ["220 a", "250 b", "250 c", "250 d", "354 e", "550 no"]).writes) :=
  data_stage_contract.2.2 ⟨"alice", "a@x", "b@y", none, false⟩
    ["220 a", "250 b", "250 c", "250 d", "354 e", "550 no"] (by decide)

/-! Proofs about the domain derivation. -/

theorem jsSplit2At_after_first (l₁ l₂ : List Char) (h1 : '@' ∉ l₁) (h2 : '@' ∉ l₂) :
    jsSplit2At '@' (l₁ ++ '@' :: l₂) = some l₂ := by
  induction l₁ with
  | nil =>
    simp only [List.nil_append, jsSplit2At, if_true, Option.some.injEq, reduceIte]
    refine List.takeWhile_eq_self_iff.mpr ?_
    intro x hx
    have hxne : x ≠ '@' := fun e => h2 (e ▸ hx)
    simp [hxne]
  | cons c l₁ ih =>
    have hc : ¬c = '@' := fun e => h1 (by simp [e])
    simp only [List.cons_append, jsSplit2At, if_neg hc]
    exact ih fun hm => h1 (List.mem_cons_of_mem c hm)

/-- Claim C6. For a sender that contains exactly one `@` — written as a prefix
without `@`, the `@`, and a suffix without `@` — the derived domain is exactly
the substring of the sender following the `@`, and that is the domain the
EHLO greeting line carries. -/
theorem domain_after_first_at (l₁ l₂ : List Char) (h1 : '@' ∉ l₁) (h2 : '@' ∉ l₂) :
    domainStr ⟨l₁ ++ '@' :: l₂⟩ = ⟨l₂⟩ ∧
    ehloLine (domainStr ⟨l₁ ++ '@' :: l₂⟩) = "EHLO " ++ (⟨l₂⟩ : String) ++ "\r\n" := by
  have h := jsSplit2At_after_first l₁ l₂ h1 h2
  have hd : domainStr ⟨l₁ ++ '@' :: l₂⟩ = ⟨l₂⟩ := by
    simp [domainStr, domainOpt, data_mk, h]
  exact ⟨hd, by rw [ehloLine, hd]⟩

/-- Claim C6 witness: the domain of "alice@example.com" is "example.com". -/
theorem domain_after_first_at_witness :
    domainStr ⟨"alice".data ++ '@' :: "example.com".data⟩ = ⟨"example.com".data⟩ ∧
    ehloLine (domainStr ⟨"alice".data ++ '@' :: "example.com".data⟩) =
      "EHLO " ++ (⟨"example.com".data⟩ : String) ++ "\r\n" :=
  domain_after_first_at "alice".data "example.com".data (by decide) (by decide)

/-- Claim C7, on the failing input `sender = "alice"` (no `@`): the source
does not reject the configuration; the derivation yields JS `undefined`, which
the template literal interpolates as the text "undefined", so the run silently
sends the malformed greeting `EHLO undefined` and proceeds — here through a
fully accepting scripted session all the way to Completed. -/
theorem no_at_sender_sends_undefined :
    domainStr "alice" = "undefined" ∧
    ehloLine "undefined" = "EHLO undefined\r\n" ∧
    (run ⟨"alice", "alice", "bob@example.test", none, false⟩ true
        ["220 a", "250 b", "250 c", "250 d", "354 e", "250 f"]).writes =
      [ehloLine "undefined", mailFromLine "alice", rcptToLine "bob@example.test",
        dataLine, messageBody "alice" "bob@example.test", quitLine] ∧
    (run ⟨"alice", "alice", "bob@example.test", none, false⟩ true
        ["220 a", "250 b", "250 c", "250 d", "354 e", "250 f"]).outcome =
      Outcome.completed := by
  refine ⟨rfl, by decide, rfl, rfl⟩

/-! Observational equivalence machinery: two sessions whose pending replies
agree on their first three characters, and whose writes agree, drive the
machine identically (debug traces aside). This underlies both the
first-three-characters claim and the verbose-non-interference claim. -/

/-- Two session states with the same writes whose pending replies agree on
their first three characters. -/
def SessRel (s₁ s₂ : Sess) : Prop :=
  s₁.writes = s₂.writes ∧ s₁.replies.map firstThree = s₂.replies.map firstThree

/-- Stage results matching up to `SessRel` and equal failure tags. -/
def ResRel : StageResult → StageResult → Prop
  | .error (st₁, s₁), .error (st₂, s₂) => st₁ = st₂ ∧ SessRel s₁ s₂
  | .ok s₁, .ok s₂ => SessRel s₁ s₂
  | _, _ => False

/-- The parser looks only at the first three characters. -/
theorem getStatus_congr {s t : String} (h : firstThree s = firstThree t) :
    getStatus s = getStatus t := by
  have h' : s.data.take 3 = t.data.take 3 := by
    have h2 := congrArg String.data h
    simpa [firstThree] using h2
  unfold getStatus
  rcases hs : s.data with _ | ⟨a, _ | ⟨b, _ | ⟨c, r⟩⟩⟩ <;>
    rcases ht : t.data with _ | ⟨a', _ | ⟨b', _ | ⟨c', r'⟩⟩⟩ <;>
      rw [hs, ht] at h' <;> simp_all

theorem bannerStage_resp (v₁ v₂ : Bool) {s₁ s₂ : Sess} (h : SessRel s₁ s₂) :
    ResRel (bannerStage v₁ s₁) (bannerStage v₂ s₂) := by
  obtain ⟨w₁, g₁, rs₁⟩ := s₁
  obtain ⟨w₂, g₂, rs₂⟩ := s₂
  obtain ⟨hw, hr⟩ := h
  simp only [Sess.writes] at hw
  simp only [Sess.replies] at hr
  subst hw
  rcases rs₁ with _ | ⟨r1, rs₁⟩ <;> rcases rs₂ with _ | ⟨r1', rs₂⟩
  · cases v₁ <;> cases v₂ <;>
      simp [bannerStage, Sess.debug, Sess.read, ResRel, SessRel]
  · simp at hr
  · simp at hr
  · simp only [List.map_cons, List.cons.injEq] at hr
    obtain ⟨hr1, hrt⟩ := hr
    have hg := getStatus_congr hr1
    by_cases h220 : getStatus r1 = some "220"
    · have h220' : getStatus r1' = some "220" := by rw [← hg]; exact h220
      cases v₁ <;> cases v₂ <;>
        simp [bannerStage, Sess.debug, Sess.read, ResRel, SessRel, h220, h220', hrt]
    · have h220' : ¬getStatus r1' = some "220" := by rw [← hg]; exact h220
      cases v₁ <;> cases v₂ <;>
        simp [bannerStage, Sess.debug, Sess.read, ResRel, SessRel, h220, h220', hrt]

theorem greetingStage_resp (v₁ v₂ : Bool) (d : String) {s₁ s₂ : Sess}
    (h : SessRel s₁ s₂) : ResRel (greetingStage v₁ d s₁) (greetingStage v₂ d s₂) := by
  obtain ⟨w₁, g₁, rs₁⟩ := s₁
  obtain ⟨w₂, g₂, rs₂⟩ := s₂
  obtain ⟨hw, hr⟩ := h
  simp only [Sess.writes] at hw
  simp only [Sess.replies] at hr
  subst hw
  rcases rs₁ with _ | ⟨r1, rs₁⟩ <;> rcases rs₂ with _ | ⟨r1', rs₂⟩
  · cases v₁ <;> cases v₂ <;>
      simp [greetingStage, Sess.debug, Sess.write, Sess.read, ResRel, SessRel]
  · simp at hr
  · simp at hr
  · simp only [List.map_cons, List.cons.injEq] at hr
    obtain ⟨hr1, hrt⟩ := hr
    have hg := getStatus_congr hr1
    by_cases h502 : getStatus r1 = some "502"
    · have h502' : getStatus r1' = some "502" := by rw [← hg]; exact h502
      rcases rs₁ with _ | ⟨r2, rs₁⟩ <;> rcases rs₂ with _ | ⟨r2', rs₂⟩
      · cases v₁ <;> cases v₂ <;>
          simp [greetingStage, Sess.debug, Sess.write, Sess.read, ResRel, SessRel,
            h502, h502']
      · simp at hrt
      · simp at hrt
      · simp only [List.map_cons, List.cons.injEq] at hrt
        obtain ⟨hr2, hrtt⟩ := hrt
        have hg2 := getStatus_congr hr2
        by_cases h250 : getStatus r2 = some "250"
        · have h250' : getStatus r2' = some "250" := by rw [← hg2]; exact h250
          cases v₁ <;> cases v₂ <;>
            simp [greetingStage, Sess.debug, Sess.write, Sess.read, ResRel, SessRel,
              h502, h502', h250, h250', hrtt]
        · have h250' : ¬getStatus r2' = some "250" := by rw [← hg2]; exact h250
          cases v₁ <;> cases v₂ <;>
            simp [greetingStage, Sess.debug, Sess.write, Sess.read, ResRel, SessRel,
              h502, h502', h250, h250', hrtt]
    · have h502' : ¬getStatus r1' = some "502" := by rw [← hg]; exact h502
      by_cases h250 : getStatus r1 = some "250"
      · have h250' : getStatus r1' = some "250" := by rw [← hg]; exact h250
        cases v₁ <;> cases v₂ <;>
          simp [greetingStage, Sess.debug, Sess.write, Sess.read, ResRel, SessRel,
            h502, h502', h250, h250', hrt]
      · have h250' : ¬getStatus r1' = some "250" := by rw [← hg]; exact h250
        cases v₁ <;> cases v₂ <;>
          simp [greetingStage, Sess.debug, Sess.write, Sess.read, ResRel, SessRel,
            h502, h502', h250, h250', hrt]

theorem authStage_resp (v₁ v₂ : Bool) (u pw : String) {s₁ s₂ : Sess}
    (h : SessRel s₁ s₂) : ResRel (authStage v₁ u pw s₁) (authStage v₂ u pw s₂) := by
  obtain ⟨w₁, g₁, rs₁⟩ := s₁
  obtain ⟨w₂, g₂, rs₂⟩ := s₂
  obtain ⟨hw, hr⟩ := h
  simp only [Sess.writes] at hw
  simp only [Sess.replies] at hr
  subst hw
  rcases rs₁ with _ | ⟨r1, rs₁⟩ <;> rcases rs₂ with _ | ⟨r1', rs₂⟩
  · cases v₁ <;> cases v₂ <;>
      simp [authStage, Sess.debug, Sess.write, Sess.read, ResRel, SessRel]
  · simp at hr
  · simp at hr
  · simp only [List.map_cons, List.cons.injEq] at hr
    obtain ⟨hr1, hrt⟩ := hr
    have hg := getStatus_congr hr1
    by_cases h1 : getStatus r1 = some "334"
    · have h1' : getStatus r1' = some "334" := by rw [← hg]; exact h1
      rcases rs₁ with _ | ⟨r2, rs₁⟩ <;> rcases rs₂ with _ | ⟨r2', rs₂⟩
      · cases v₁ <;> cases v₂ <;>
          simp [authStage, Sess.debug, Sess.write, Sess.read, ResRel, SessRel, h1, h1']
      · simp at hrt
      · simp at hrt
      · simp only [List.map_cons, List.cons.injEq] at hrt
        obtain ⟨hr2, hrtt⟩ := hrt
        have hg2 := getStatus_congr hr2
        by_cases h2 : getStatus r2 = some "334"
        · have h2' : getStatus r2' = some "334" := by rw [← hg2]; exact h2
          rcases rs₁ with _ | ⟨r3, rs₁⟩ <;> rcases rs₂ with _ | ⟨r3', rs₂⟩
          · cases v₁ <;> cases v₂ <;>
              simp [authStage, Sess.debug, Sess.write, Sess.read, ResRel, SessRel,
                h1, h1', h2, h2']
          · simp at hrtt
          · simp at hrtt
          · simp only [List.map_cons, List.cons.injEq] at hrtt
            obtain ⟨hr3, hrttt⟩ := hrtt
            have hg3 := getStatus_congr hr3
            by_cases h3 : getStatus r3 = some "235"
            · have h3' : getStatus r3' = some "235" := by rw [← hg3]; exact h3
              cases v₁ <;> cases v₂ <;>
                simp [authStage, Sess.debug, Sess.write, Sess.read, ResRel, SessRel,
                  h1, h1', h2, h2', h3, h3', hrttt]
            · have h3' : ¬getStatus r3' = some "235" := by rw [← hg3]; exact h3
              cases v₁ <;> cases v₂ <;>
                simp [authStage, Sess.debug, Sess.write, Sess.read, ResRel, SessRel,
                  h1, h1', h2, h2', h3, h3', hrttt]
        · have h2' : ¬getStatus r2' = some "334" := by rw [← hg2]; exact h2
          cases v₁ <;> cases v₂ <;>
            simp [authStage, Sess.debug, Sess.write, Sess.read, ResRel, SessRel,
              h1, h1', h2, h2', hrtt]
    · have h1' : ¬getStatus r1' = some "334" := by rw [← hg]; exact h1
      cases v₁ <;> cases v₂ <;>
        simp [authStage, Sess.debug, Sess.write, Sess.read, ResRel, SessRel, h1, h1', hrt]

theorem mailStage_resp (v₁ v₂ : Bool) (snd rcp : String) {s₁ s₂ : Sess}
    (h : SessRel s₁ s₂) :
    ResRel (mailStage v₁ snd rcp s₁) (mailStage v₂ snd rcp s₂) := by
  obtain ⟨w₁, g₁, rs₁⟩ := s₁
  obtain ⟨w₂, g₂, rs₂⟩ := s₂
  obtain ⟨hw, hr⟩ := h
  simp only [Sess.writes] at hw
  simp only [Sess.replies] at hr
  subst hw
  rcases rs₁ with _ | ⟨r1, rs₁⟩ <;> rcases rs₂ with _ | ⟨r1', rs₂⟩
  · cases v₁ <;> cases v₂ <;>
      simp [mailStage, Sess.debug, Sess.write, Sess.read, ResRel, SessRel]
  · simp at hr
  · simp at hr
  · simp only [List.map_cons, List.cons.injEq] at hr
    obtain ⟨hr1, hrt⟩ := hr
    have hg := getStatus_congr hr1
    by_cases h1 : getStatus r1 = some "250"
    · have h1' : getStatus r1' = some "250" := by rw [← hg]; exact h1
      rcases rs₁ with _ | ⟨r2, rs₁⟩ <;> rcases rs₂ with _ | ⟨r2', rs₂⟩
      · cases v₁ <;> cases v₂ <;>
          simp [mailStage, Sess.debug, Sess.write, Sess.read, ResRel, SessRel, h1, h1']
      · simp at hrt
      · simp at hrt
      · simp only [List.map_cons, List.cons.injEq] at hrt
        obtain ⟨hr2, hrtt⟩ := hrt
        have hg2 := getStatus_congr hr2
        by_cases h2 : getStatus r2 = some "250"
        · have h2' : getStatus r2' = some "250" := by rw [← hg2]; exact h2
          cases v₁ <;> cases v₂ <;>
            simp [mailStage, Sess.debug, Sess.write, Sess.read, ResRel, SessRel,
              h1, h1', h2, h2', hrtt]
        · have h2' : ¬getStatus r2' = some "250" := by rw [← hg2]; exact h2
          by_cases h3 : getStatus r2 = some "251"
          · have h3' : getStatus r2' = some "251" := by rw [← hg2]; exact h3
            cases v₁ <;> cases v₂ <;>
              simp [mailStage, Sess.debug, Sess.write, Sess.read, ResRel, SessRel,
                h1, h1', h2, h2', h3, h3', hrtt]
          · have h3' : ¬getStatus r2' = some "251" := by rw [← hg2]; exact h3
            cases v₁ <;> cases v₂ <;>
              simp [mailStage, Sess.debug, Sess.write, Sess.read, ResRel, SessRel,
                h1, h1', h2, h2', h3, h3', hrtt]
    · have h1' : ¬getStatus r1' = some "250" := by rw [← hg]; exact h1
      cases v₁ <;> cases v₂ <;>
        simp [mailStage, Sess.debug, Sess.write, Sess.read, ResRel, SessRel, h1, h1', hrt]

theorem dataStage_resp (v₁ v₂ : Bool) (snd rcp : String) {s₁ s₂ : Sess}
    (h : SessRel s₁ s₂) :
    ResRel (dataStage v₁ snd rcp s₁) (dataStage v₂ snd rcp s₂) := by
  obtain ⟨w₁, g₁, rs₁⟩ := s₁
  obtain ⟨w₂, g₂, rs₂⟩ := s₂
  obtain ⟨hw, hr⟩ := h
  simp only [Sess.writes] at hw
  simp only [Sess.replies] at hr
  subst hw
  rcases rs₁ with _ | ⟨r1, rs₁⟩ <;> rcases rs₂ with _ | ⟨r1', rs₂⟩
  · cases v₁ <;> cases v₂ <;>
      simp [dataStage, Sess.debug, Sess.write, Sess.read, ResRel, SessRel]
  · simp at hr
  · simp at hr
  · simp only [List.map_cons, List.cons.injEq] at hr
    obtain ⟨hr1, hrt⟩ := hr
    have hg := getStatus_congr hr1
    by_cases h1 : getStatus r1 = some "354"
    · have h1' : getStatus r1' = some "354" := by rw [← hg]; exact h1
      rcases rs₁ with _ | ⟨r2, rs₁⟩ <;> rcases rs₂ with _ | ⟨r2', rs₂⟩
      · cases v₁ <;> cases v₂ <;>
          simp [dataStage, Sess.debug, Sess.write, Sess.read, ResRel, SessRel, h1, h1']
      · simp at hrt
      · simp at hrt
      · simp only [List.map_cons, List.cons.injEq] at hrt
        obtain ⟨hr2, hrtt⟩ := hrt
        have hg2 := getStatus_congr hr2
        by_cases h2 : getStatus r2 = some "250"
        · have h2' : getStatus r2' = some "250" := by rw [← hg2]; exact h2
          cases v₁ <;> cases v₂ <;>
            simp [dataStage, Sess.debug, Sess.write, Sess.read, ResRel, SessRel,
              h1, h1', h2, h2', hrtt]
        · have h2' : ¬getStatus r2' = some "250" := by rw [← hg2]; exact h2
          cases v₁ <;> cases v₂ <;>
            simp [dataStage, Sess.debug, Sess.write, Sess.read, ResRel, SessRel,
              h1, h1', h2, h2', hrtt]
    · have h1' : ¬getStatus r1' = some "354" := by rw [← hg]; exact h1
      cases v₁ <;> cases v₂ <;>
        simp [dataStage, Sess.debug, Sess.write, Sess.read, ResRel, SessRel, h1, h1', hrt]

/-- The whole stage chain respects the relation: configurations differing only
in `verbose`, on reply scripts that agree in their first three characters per
reply, produce related results. -/
theorem sessionChain_resp (o₁ o₂ : ClientOpts) (hu : o₁.user = o₂.user)
    (hs : o₁.sender = o₂.sender) (hr : o₁.recipient = o₂.recipient)
    (hp : o₁.password = o₂.password) {s₁ s₂ : Sess} (h : SessRel s₁ s₂) :
    ResRel (sessionChain o₁ s₁) (sessionChain o₂ s₂) := by
  have hb := bannerStage_resp o₁.verbose o₂.verbose h
  cases hb₁ : bannerStage o₁.verbose s₁ with
  | error e₁ =>
    obtain ⟨st₁, t₁⟩ := e₁
    cases hb₂ : bannerStage o₂.verbose s₂ with
    | error e₂ =>
      obtain ⟨st₂, t₂⟩ := e₂
      rw [hb₁, hb₂] at hb
      have hc₁ : sessionChain o₁ s₁ = .error (st₁, t₁) := by
        rw [sessionChain]; simp only [hb₁]
      have hc₂ : sessionChain o₂ s₂ = .error (st₂, t₂) := by
        rw [sessionChain]; simp only [hb₂]
      rw [hc₁, hc₂]
      simpa [ResRel] using hb
    | ok t₂ => rw [hb₁, hb₂] at hb; simp [ResRel] at hb
  | ok t₁ =>
    cases hb₂ : bannerStage o₂.verbose s₂ with
    | error e₂ =>
      obtain ⟨st₂, t₂⟩ := e₂
      rw [hb₁, hb₂] at hb; simp [ResRel] at hb
    | ok t₂ =>
      rw [hb₁, hb₂] at hb
      simp only [ResRel] at hb
      have hg := greetingStage_resp o₁.verbose o₂.verbose (domainStr o₁.sender) hb
      cases hg₁ : greetingStage o₁.verbose (domainStr o₁.sender) t₁ with
      | error e₁ =>
        obtain ⟨st₁, u₁⟩ := e₁
        cases hg₂ : greetingStage o₂.verbose (domainStr o₁.sender) t₂ with
        | error e₂ =>
          obtain ⟨st₂, u₂⟩ := e₂
          rw [hg₁, hg₂] at hg
          have hc₁ : sessionChain o₁ s₁ = .error (st₁, u₁) := by
            rw [sessionChain]; simp only [hb₁, hg₁]
          have hc₂ : sessionChain o₂ s₂ = .error (st₂, u₂) := by
            rw [sessionChain]; simp only [← hs, hb₂, hg₂]
          rw [hc₁, hc₂]
          simpa [ResRel] using hg
        | ok u₂ => rw [hg₁, hg₂] at hg; simp [ResRel] at hg
      | ok u₁ =>
        cases hg₂ : greetingStage o₂.verbose (domainStr o₁.sender) t₂ with
        | error e₂ =>
          obtain ⟨st₂, u₂⟩ := e₂
          rw [hg₁, hg₂] at hg; simp [ResRel] at hg
        | ok u₂ =>
          rw [hg₁, hg₂] at hg
          simp only [ResRel] at hg
          cases hpw : o₁.password with
          | none =>
            have hm := mailStage_resp o₁.verbose o₂.verbose o₁.sender o₁.recipient hg
            cases hm₁ : mailStage o₁.verbose o₁.sender o₁.recipient u₁ with
            | error e₁ =>
              obtain ⟨st₁, x₁⟩ := e₁
              cases hm₂ : mailStage o₂.verbose o₁.sender o₁.recipient u₂ with
              | error e₂ =>
                obtain ⟨st₂, x₂⟩ := e₂
                rw [hm₁, hm₂] at hm
                have hc₁ : sessionChain o₁ s₁ = .error (st₁, x₁) := by
                  rw [sessionChain]; simp only [hb₁, hg₁, hpw, hm₁]
                have hc₂ : sessionChain o₂ s₂ = .error (st₂, x₂) := by
                  rw [sessionChain]
                  simp only [← hs, ← hr, ← hp, hb₂, hg₂, hpw, hm₂]
                rw [hc₁, hc₂]
                simpa [ResRel] using hm
              | ok x₂ => rw [hm₁, hm₂] at hm; simp [ResRel] at hm
            | ok x₁ =>
              cases hm₂ : mailStage o₂.verbose o₁.sender o₁.recipient u₂ with
              | error e₂ =>
                obtain ⟨st₂, x₂⟩ := e₂
                rw [hm₁, hm₂] at hm; simp [ResRel] at hm
              | ok x₂ =>
                rw [hm₁, hm₂] at hm
                simp only [ResRel] at hm
                have hc₁ : sessionChain o₁ s₁ =
                    dataStage o₁.verbose o₁.sender o₁.recipient x₁ := by
                  rw [sessionChain]; simp only [hb₁, hg₁, hpw, hm₁]
                have hc₂ : sessionChain o₂ s₂ =
                    dataStage o₂.verbose o₁.sender o₁.recipient x₂ := by
                  rw [sessionChain]
                  simp only [← hs, ← hr, ← hp, hb₂, hg₂, hpw, hm₂]
                rw [hc₁, hc₂]
                exact dataStage_resp o₁.verbose o₂.verbose o₁.sender o₁.recipient hm
          | some pw =>
            have ha := authStage_resp o₁.verbose o₂.verbose o₁.user pw hg
            cases ha₁ : authStage o₁.verbose o₁.user pw u₁ with
            | error e₁ =>
              obtain ⟨st₁, y₁⟩ := e₁
              cases ha₂ : authStage o₂.verbose o₁.user pw u₂ with
              | error e₂ =>
                obtain ⟨st₂, y₂⟩ := e₂
                rw [ha₁, ha₂] at ha
                have hc₁ : sessionChain o₁ s₁ = .error (st₁, y₁) := by
                  rw [sessionChain]; simp only [hb₁, hg₁, hpw, ha₁]
                have hc₂ : sessionChain o₂ s₂ = .error (st₂, y₂) := by
                  rw [sessionChain]
                  simp only [← hs, ← hu, ← hp, hb₂, hg₂, hpw, ha₂]
                rw [hc₁, hc₂]
                simpa [ResRel] using ha
              | ok y₂ => rw [ha₁, ha₂] at ha; simp [ResRel] at ha
            | ok y₁ =>
              cases ha₂ : authStage o₂.verbose o₁.user pw u₂ with
              | error e₂ =>
                obtain ⟨st₂, y₂⟩ := e₂
                rw [ha₁, ha₂] at ha; simp [ResRel] at ha
              | ok y₂ =>
                rw [ha₁, ha₂] at ha
                simp only [ResRel] at ha
                have hm := mailStage_resp o₁.verbose o₂.verbose o₁.sender o₁.recipient ha
                cases hm₁ : mailStage o₁.verbose o₁.sender o₁.recipient y₁ with
                | error e₁ =>
                  obtain ⟨st₁, x₁⟩ := e₁
                  cases hm₂ : mailStage o₂.verbose o₁.sender o₁.recipient y₂ with
                  | error e₂ =>
                    obtain ⟨st₂, x₂⟩ := e₂
                    rw [hm₁, hm₂] at hm
                    have hc₁ : sessionChain o₁ s₁ = .error (st₁, x₁) := by
                      rw [sessionChain]; simp only [hb₁, hg₁, hpw, ha₁, hm₁]
                    have hc₂ : sessionChain o₂ s₂ = .error (st₂, x₂) := by
                      rw [sessionChain]
                      simp only [← hs, ← hr, ← hu, ← hp, hb₂, hg₂, hpw, ha₂, hm₂]
                    rw [hc₁, hc₂]
                    simpa [ResRel] using hm
                  | ok x₂ => rw [hm₁, hm₂] at hm; simp [ResRel] at hm
                | ok x₁ =>
                  cases hm₂ : mailStage o₂.verbose o₁.sender o₁.recipient y₂ with
                  | error e₂ =>
                    obtain ⟨st₂, x₂⟩ := e₂
                    rw [hm₁, hm₂] at hm; simp [ResRel] at hm
                  | ok x₂ =>
                    rw [hm₁, hm₂] at hm
                    simp only [ResRel] at hm
                    have hc₁ : sessionChain o₁ s₁ =
                        dataStage o₁.verbose o₁.sender o₁.recipient x₁ := by
                      rw [sessionChain]; simp only [hb₁, hg₁, hpw, ha₁, hm₁]
                    have hc₂ : sessionChain o₂ s₂ =
                        dataStage o₂.verbose o₁.sender o₁.recipient x₂ := by
                      rw [sessionChain]
                      simp only [← hs, ← hr, ← hu, ← hp, hb₂, hg₂, hpw, ha₂, hm₂]
                    rw [hc₁, hc₂]
                    exact dataStage_resp o₁.verbose o₂.verbose o₁.sender o₁.recipient hm

/-- Claim C10. The verbose flag does not influence the protocol exchange: for
every connect result and every fixed scripted reply sequence, the bytes the
session writes and the terminal outcome and teardown are identical whether
verbose is enabled or disabled; verbose only changes the debug trace. -/
theorem verbose_does_not_influence (o : ClientOpts) (b₁ b₂ k : Bool)
    (replies : List String) :
    (run { o with verbose := b₁ } k replies).writes =
      (run { o with verbose := b₂ } k replies).writes ∧
    (run { o with verbose := b₁ } k replies).outcome =
      (run { o with verbose := b₂ } k replies).outcome ∧
    (run { o with verbose := b₁ } k replies).teardown =
      (run { o with verbose := b₂ } k replies).teardown := by
  cases k
  · simp [run]
  · have hres := sessionChain_resp { o with verbose := b₁ } { o with verbose := b₂ }
      rfl rfl rfl rfl (⟨rfl, rfl⟩ : SessRel ⟨[], [], replies⟩ ⟨[], [], replies⟩)
    cases hc₁ : sessionChain { o with verbose := b₁ } ⟨[], [], replies⟩ with
    | error e₁ =>
      obtain ⟨st₁, s₁'⟩ := e₁
      cases hc₂ : sessionChain { o with verbose := b₂ } ⟨[], [], replies⟩ with
      | error e₂ =>
        obtain ⟨st₂, s₂'⟩ := e₂
        rw [hc₁, hc₂] at hres
        simp only [ResRel, SessRel] at hres
        obtain ⟨hst, hw, -⟩ := hres
        subst hst
        simp [run, hc₁, hc₂, hw]
      | ok s₂' => rw [hc₁, hc₂] at hres; simp [ResRel] at hres
    | ok s₁' =>
      cases hc₂ : sessionChain { o with verbose := b₂ } ⟨[], [], replies⟩ with
      | error e₂ =>
        obtain ⟨st₂, s₂'⟩ := e₂
        rw [hc₁, hc₂] at hres; simp [ResRel] at hres
      | ok s₂' =>
        rw [hc₁, hc₂] at hres
        simp only [ResRel, SessRel] at hres
        obtain ⟨hw, -⟩ := hres
        cases b₁ <;> cases b₂ <;>
          simp [run, hc₁, hc₂, Sess.debug, Sess.write, hw]

/-- Claim C9. Every stage's acceptance decision looks only at the first three
characters of the reply read for that stage. First conjunct: the parser is
determined by the first three characters. Second: a reply shorter than three
characters parses to the sentinel, so it can never equal an accepted code.
Third, at machine level: two reply scripts that agree per reply on the first
three characters produce identical writes, outcome and teardown. Fourth: a
multi-line continuation greeting reply beginning "250-" is accepted at the
Greeting stage and the run completes. -/
theorem acceptance_first_three :
    (∀ s t : String, firstThree s = firstThree t → getStatus s = getStatus t) ∧
    (∀ s : String, s.data.length < 3 → getStatus s = none) ∧
    (∀ (o : ClientOpts) (k : Bool) (rs₁ rs₂ : List String),
      rs₁.map firstThree = rs₂.map firstThree →
      (run o k rs₁).writes = (run o k rs₂).writes ∧
      (run o k rs₁).outcome = (run o k rs₂).outcome ∧
      (run o k rs₁).teardown = (run o k rs₂).teardown) ∧
    (run ⟨"alice", "alice@example.com", "bob@example.test", none, false⟩ true
        ["220 svc", "250-mail.example.com greets you\r\n250 SIZE", "250 a", "251 b",
          "354 c", "250 d"]).outcome = Outcome.completed := by
  refine ⟨fun s t h => getStatus_congr h, ?_, ?_, by rfl⟩
  · intro s hl
    unfold getStatus
    rcases hs : s.data with _ | ⟨a, _ | ⟨b, _ | ⟨c, r⟩⟩⟩ <;> rw [hs] at hl <;>
      simp_all <;> omega
  · intro o k rs₁ rs₂ hmap
    cases k
    · simp [run]
    · have hres := sessionChain_resp o o rfl rfl rfl rfl
        (⟨rfl, hmap⟩ : SessRel ⟨[], [], rs₁⟩ ⟨[], [], rs₂⟩)
      cases hc₁ : sessionChain o ⟨[], [], rs₁⟩ with
      | error e₁ =>
        obtain ⟨st₁, s₁'⟩ := e₁
        cases hc₂ : sessionChain o ⟨[], [], rs₂⟩ with
        | error e₂ =>
          obtain ⟨st₂, s₂'⟩ := e₂
          rw [hc₁, hc₂] at hres
          simp only [ResRel, SessRel] at hres
          obtain ⟨hst, hw, -⟩ := hres
          subst hst
          simp [run, hc₁, hc₂, hw]
        | ok s₂' => rw [hc₁, hc₂] at hres; simp [ResRel] at hres
      | ok s₁' =>
        cases hc₂ : sessionChain o ⟨[], [], rs₂⟩ with
        | error e₂ =>
          obtain ⟨st₂, s₂'⟩ := e₂
          rw [hc₁, hc₂] at hres; simp [ResRel] at hres
        | ok s₂' =>
          rw [hc₁, hc₂] at hres
          simp only [ResRel, SessRel] at hres
          obtain ⟨hw, -⟩ := hres
          by_cases hv : o.verbose = true <;>
            simp [run, hc₁, hc₂, Sess.debug, Sess.write, hw, hv]

/-- Claim C9 witness: two scripted servers whose replies differ beyond the
third character (one greeting a multi-line "250-…" reply, one a bare "250")
drive identical writes, outcome and teardown. -/
theorem acceptance_first_three_witness :
    (run ⟨"alice", "alice@example.com", "bob@example.test", none, false⟩ true
        ["220 svc", "250-mail.example.com greets you\r\n250 SIZE", "250 a", "251 b",
          "354 c", "250 d"]).writes =
      (run ⟨"alice", "alice@example.com", "bob@example.test", none, false⟩ true
        ["220", "250", "250", "251", "354", "250"]).writes ∧
    (run ⟨"alice", "alice@example.com", "bob@example.test", none, false⟩ true
        ["220 svc", "250-mail.example.com greets you\r\n250 SIZE", "250 a", "251 b",
          "354 c", "250 d"]).outcome =
      (run ⟨"alice", "alice@example.com", "bob@example.test", none, false⟩ true
        ["220", "250", "250", "251", "354", "250"]).outcome ∧
    (run ⟨"alice", "alice@example.com", "bob@example.test", none, false⟩ true
        ["220 svc", "250-mail.example.com greets you\r\n250 SIZE", "250 a", "251 b",
          "354 c", "250 d"]).teardown =
      (run ⟨"alice", "alice@example.com", "bob@example.test", none, false⟩ true
        ["220", "250", "250", "251", "354", "250"]).teardown :=
  acceptance_first_three.2.2.1 ⟨"alice", "alice@example.com", "bob@example.test", none, false⟩
    true
    ["220 svc", "250-mail.example.com greets you\r\n250 SIZE", "250 a", "251 b",
      "354 c", "250 d"]
    ["220", "250", "250", "251", "354", "250"] (by decide)

/-! Proofs about teardown behaviour. -/

/-- Claim C8 counterexample: on connection failure the source logs and calls
`process.exit` without any `destroy`/`end` on the socket, so this exit path of
a run that reached the Connect stage performs no teardown of the transport. -/
theorem connect_failure_no_teardown :
    (run ⟨"alice", "alice@example.com", "bob@example.test", none, false⟩ false []).teardown =
      Teardown.noTeardown ∧
    Teardown.noTeardown ≠ Teardown.destroyed ∧ Teardown.noTeardown ≠ Teardown.ended := by
  decide

/-- Claim C8, amended. On every exit path of a run in which the TCP connection
was established the transport is released — destroyed on a stage failure,
ended on success — while on connection failure the run terminates with no
teardown call. -/
theorem teardown_on_every_exit (o : ClientOpts) (replies : List String) :
    ((run o true replies).teardown = Teardown.destroyed ∨
      (run o true replies).teardown = Teardown.ended) ∧
    (run o false replies).teardown = Teardown.noTeardown := by
  refine ⟨?_, rfl⟩
  cases h : sessionChain o ⟨[], [], replies⟩ with
  | error e => obtain ⟨st, s⟩ := e; simp [run, h]
  | ok s => simp [run, h]

end Shokuhou
